import Mathlib

/-!
# Verification of the ppt-kit MCP bridge

Shallow embedding of the ppt-kit sources (markdown parser, MCP tool server,
bridge relay, bridge client lifecycle) in Lean 4, with theorems settling the
specification claims about them.

Conventions:
* Pure TypeScript functions become Lean functions; stateful modules become
  explicit state records with step functions, one per source event handler.
* Machine numbers that stay small are `Nat`/`Int`; the reconnect delay
  (`2000 * 1.5^n`, exact in binary floating point for the relevant range)
  is `ℚ`.
* Fallible async operations are `Except String α` (a rejected promise is
  `.error msg`).
-/

namespace PPTKit

/-! ## Data model (`src/types/index.ts`) -/

/-- `LayoutType` from `src/types/index.ts`. -/
inductive LayoutType where
  | title
  | content
  | twoColumn
  | comparison
  | imageFocus
  | codeFocus
deriving DecidableEq, Repr

/-- The string literal each `LayoutType` member denotes in the source. -/
def LayoutType.toStr : LayoutType → String
  | .title => "title"
  | .content => "content"
  | .twoColumn => "two-column"
  | .comparison => "comparison"
  | .imageFocus => "image-focus"
  | .codeFocus => "code-focus"

/-- The `type` discriminator of `ContentBlock`. -/
inductive BlockType where
  | text
  | code
  | mermaid
  | image
  | list
deriving DecidableEq, Repr

/-- `BlockStyle` from `src/types/index.ts` (fields used by the parser). -/
structure BlockStyle where
  fontSize : Option Int := none
  fontWeight : Option String := none
  color : Option String := none
  backgroundColor : Option String := none
deriving DecidableEq, Repr

/-- `ContentBlock` from `src/types/index.ts`. -/
structure ContentBlock where
  type : BlockType
  content : String
  language : Option String := none
  style : Option BlockStyle := none
deriving DecidableEq, Repr

/-- `SlideContent` from `src/types/index.ts` (the optional `notes` field is
never produced by the code under consideration and is omitted). -/
structure SlideContent where
  id : String
  title : String
  blocks : List ContentBlock
  layout : LayoutType
deriving DecidableEq, Repr

/-! ## Markdown parser (`src/modules/markdown/parser.ts`) -/

/-- The shape of the `marked` lexer tokens that `parser.ts` consumes
(`ParsedToken`): headings carry a depth, code carries an optional language,
lists carry their item texts.  Blank-line runs come out of the lexer as
`space` tokens. -/
inductive MDToken where
  | heading (depth : Nat) (text : String)
  | paragraph (text : String)
  | code (lang : Option String) (text : String)
  | list (items : List String)
  | blockquote (text : String)
  | space
deriving DecidableEq, Repr

/-- `tokenToBlock` from `parser.ts` lines 68–123. -/
def tokenToBlock : MDToken → Option ContentBlock
  | .paragraph t => some { type := .text, content := t }
  | .code lang t =>
    if lang = some "mermaid" then
      some { type := .mermaid, content := t }
    else
      some { type := .code, content := t, language := some (lang.getD "plaintext") }
  | .list items => some { type := .list, content := String.intercalate "\n" items }
  | .blockquote t =>
    some { type := .text, content := t,
           style := some { backgroundColor := some "#f3f2f1" } }
  | .heading depth t =>
    if depth > 2 then
      some { type := .text, content := t,
             style := some { fontWeight := some "bold",
                             fontSize := some (18 - ((depth : Int) - 3) * 2) } }
    else none
  | .space => none

/-- `determineLayout` from `parser.ts` lines 128–161, including the order of
its checks (code, then image, then mermaid, then block count). -/
def determineLayout (slide : SlideContent) : LayoutType :=
  let hasCode := slide.blocks.any fun b => b.type == .code
  let hasMermaid := slide.blocks.any fun b => b.type == .mermaid
  let hasImage := slide.blocks.any fun b => b.type == .image
  let blockCount := slide.blocks.length
  if blockCount = 0 then .title
  else if hasCode ∧ blockCount ≤ 2 then .codeFocus
  else if hasImage then .imageFocus
  else if hasMermaid then .imageFocus
  else if blockCount ≥ 4 then .twoColumn
  else .content

/-- The layout auto-selection rule exactly as the specification words it
(§4.1): "zero blocks → title; has code and ≤2 blocks → code-focus; has an
image or mermaid block → image-focus; ≥4 blocks → two-column; otherwise →
content".  Written from the spec, to be compared against `determineLayout`. -/
def layoutPerSpec (slide : SlideContent) : LayoutType :=
  if slide.blocks.length = 0 then .title
  else if (slide.blocks.any fun b => b.type == .code) ∧ slide.blocks.length ≤ 2 then .codeFocus
  else if slide.blocks.any (fun b => b.type == .image || b.type == .mermaid) then .imageFocus
  else if slide.blocks.length ≥ 4 then .twoColumn
  else .content

/-- The `for (const token of tokens)` loop of `parseMarkdown`
(`parser.ts` lines 16–63): level-1/2 headings finish the current slide
(stamping its layout) and start a new one; other tokens are converted by
`tokenToBlock` and appended to the current slide, creating an implicit
untitled slide first if none is open. -/
def parseTokens : List MDToken → Option SlideContent → Nat → List SlideContent
  | [], cur, _ =>
    match cur with
    | some s => [{ s with layout := determineLayout s }]
    | none => []
  | .heading d text :: ts, cur, idx =>
    if d = 1 ∨ d = 2 then
      let finished :=
        match cur with
        | some s => [{ s with layout := determineLayout s }]
        | none => []
      finished ++
        parseTokens ts
          (some { id := "slide-" ++ toString idx, title := text, blocks := [],
                  layout := .content })
          (idx + 1)
    else
      -- sub-heading: handled like any other token below
      let (s, idx') :=
        match cur with
        | some s => (s, idx)
        | none =>
          ({ id := "slide-" ++ toString idx, title := "", blocks := [],
             layout := .content }, idx + 1)
      let s' :=
        match tokenToBlock (.heading d text) with
        | some b => { s with blocks := s.blocks ++ [b] }
        | none => s
      parseTokens ts (some s') idx'
  | t :: ts, cur, idx =>
    let (s, idx') :=
      match cur with
      | some s => (s, idx)
      | none =>
        ({ id := "slide-" ++ toString idx, title := "", blocks := [],
           layout := .content }, idx + 1)
    let s' :=
      match tokenToBlock t with
      | some b => { s with blocks := s.blocks ++ [b] }
      | none => s
    parseTokens ts (some s') idx'

/-- Split a character list at every occurrence of `c` (the pieces, without
the separators; mirrors `String.splitOn` for a one-character separator). -/
def splitOnChar (c : Char) : List Char → List (List Char)
  | [] => [[]]
  | x :: xs =>
    if x = c then [] :: splitOnChar c xs
    else
      match splitOnChar c xs with
      | r :: rs => (x :: r) :: rs
      | [] => [[x]]

/-- Strip leading and trailing whitespace from a character list. -/
def trimChars (l : List Char) : List Char :=
  ((l.dropWhile Char.isWhitespace).reverse.dropWhile Char.isWhitespace).reverse

/-- `startsWithChars l p` is true when `p` is a prefix of `l`. -/
def startsWithChars : List Char → List Char → Bool
  | _, [] => true
  | [], _ :: _ => false
  | x :: xs, y :: ys => x = y && startsWithChars xs ys

/-- Join character-list lines with newlines. -/
def joinNL (ls : List (List Char)) : List Char :=
  (List.intersperse ['\n'] ls).flatten

/-- One step of the line-oriented tokenizer: classify the next run of input
lines into a token.  Returns the token (if any) and the remaining lines. -/
def lexStep : List (List Char) → Option MDToken × List (List Char)
  | [] => (none, [])
  | l :: ls =>
    if trimChars l = [] then
      (some .space, ls)
    else if startsWithChars l "######".data && startsWithChars (l.drop 6) " ".data then
      (some (.heading 6 ⟨trimChars (l.drop 6)⟩), ls)
    else if startsWithChars l "#####".data && startsWithChars (l.drop 5) " ".data then
      (some (.heading 5 ⟨trimChars (l.drop 5)⟩), ls)
    else if startsWithChars l "####".data && startsWithChars (l.drop 4) " ".data then
      (some (.heading 4 ⟨trimChars (l.drop 4)⟩), ls)
    else if startsWithChars l "###".data && startsWithChars (l.drop 3) " ".data then
      (some (.heading 3 ⟨trimChars (l.drop 3)⟩), ls)
    else if startsWithChars l "##".data && startsWithChars (l.drop 2) " ".data then
      (some (.heading 2 ⟨trimChars (l.drop 2)⟩), ls)
    else if startsWithChars l "#".data && startsWithChars (l.drop 1) " ".data then
      (some (.heading 1 ⟨trimChars (l.drop 1)⟩), ls)
    else if startsWithChars l "```".data then
      let lang := trimChars (l.drop 3)
      let isFence := fun (x : List Char) => startsWithChars x "```".data
      let body := ls.takeWhile (fun x => !isFence x)
      let rest := (ls.dropWhile (fun x => !isFence x)).drop 1
      (some (.code (if lang = [] then none else some ⟨lang⟩) ⟨joinNL body⟩), rest)
    else if startsWithChars l "- ".data || startsWithChars l "* ".data then
      let isItem := fun (x : List Char) =>
        startsWithChars x "- ".data || startsWithChars x "* ".data
      let items := ((l :: ls).takeWhile isItem).map fun x => (⟨trimChars (x.drop 2)⟩ : String)
      (some (.list items), (l :: ls).dropWhile isItem)
    else if startsWithChars l "> ".data then
      (some (.blockquote ⟨trimChars (l.drop 2)⟩), ls)
    else
      let isPlain := fun (x : List Char) =>
        !((trimChars x).isEmpty || startsWithChars x "#".data || startsWithChars x "```".data ||
          startsWithChars x "- ".data || startsWithChars x "* ".data ||
          startsWithChars x "> ".data)
      let para := (l :: ls).takeWhile isPlain
      (some (.paragraph ⟨joinNL para⟩), (l :: ls).dropWhile isPlain)

/-- Fueled driver for `lexStep` (fuel bounds the number of lines, which each
step strictly consumes). -/
def lexLines : Nat → List (List Char) → List MDToken
  | 0, _ => []
  | _, [] => []
  | fuel + 1, ls =>
    match lexStep ls with
    | (some t, rest) => t :: lexLines fuel rest
    | (none, rest) => lexLines fuel rest

/-- Modelled from the spec: the markdown tokenizer is the external `marked`
library (a dependency, not part of this repository), which `parseMarkdown`
calls as `marked.lexer`.  Modelled after §4.1's line-oriented description:
"scan line-by-line"; `#`/`##`(…) headings; fenced code blocks with a
language tag (` ```mermaid ` included); bullet lists; blockquotes; plain
paragraphs; blank lines separate blocks. -/
def markedLexer (md : String) : List MDToken :=
  let lines := splitOnChar '\n' md.data
  lexLines lines.length lines

/-- `parseMarkdown` from `parser.ts` lines 16–63. -/
def parseMarkdown (md : String) : List SlideContent :=
  parseTokens (markedLexer md) none 0

/-- Distributing `List.any` over a disjunctive predicate. -/
theorem any_type_or_split (l : List ContentBlock) (p q : BlockType) :
    (l.any fun b => b.type == p || b.type == q) =
      ((l.any fun b => b.type == p) || (l.any fun b => b.type == q)) := by
  induction l with
  | nil => rfl
  | cons a t ih =>
    simp only [List.any_cons, ih]
    cases a.type == p <;> cases a.type == q <;>
      cases t.any (fun b => b.type == p) <;> cases t.any (fun b => b.type == q) <;> rfl

/-- C6: parsing `"# A\n\nhello\n\n## B\n- x\n- y"` yields exactly two slides:
slide 0 titled `"A"` with a single text block `"hello"` and layout `content`;
slide 1 titled `"B"` with a single list block `"x\ny"` (items newline-joined)
and layout `content`. -/
theorem parse_scenario_two_slides :
    parseMarkdown "# A\n\nhello\n\n## B\n- x\n- y" =
      [{ id := "slide-0", title := "A",
         blocks := [{ type := .text, content := "hello" }], layout := .content },
       { id := "slide-1", title := "B",
         blocks := [{ type := .list, content := "x\ny" }], layout := .content }] := by
  decide

/-- C7: for every parsed slide, `determineLayout` picks the layout exactly by
the spec's priority order — zero blocks → `title`; code present and ≤ 2 blocks
→ `code-focus`; an image or mermaid block present → `image-focus`; ≥ 4 blocks
→ `two-column`; otherwise `content`. -/
theorem determineLayout_follows_spec_priority (slide : SlideContent) :
    determineLayout slide = layoutPerSpec slide := by
  unfold determineLayout layoutPerSpec
  rw [any_type_or_split]
  cases hcode : slide.blocks.any (fun b => b.type == .code) <;>
    cases himg : slide.blocks.any (fun b => b.type == .image) <;>
      cases hmer : slide.blocks.any (fun b => b.type == .mermaid) <;>
        simp

/-! ## Bridge relay (`src/mcp/server/index.ts`, bridge server document)

The bridge server keeps module-level mutable state: `browserConnection`
(nullable executor WebSocket), the operations binding installed through
`setPPTOperations` (mock or bridged), `pendingRequests` (a map from
correlation id to pending promise), and the monotonic `requestId` counter.
We model this state as one record and each event handler as a step function.
Handlers run atomically here: the event loop is single-threaded, and the one
`await createMockOperations()` inside the close handler resolves on the
microtask queue, before any further WebSocket event can be delivered.

Correlation ids are the strings `req-<counter>-<timestamp>`; the model keys
requests by the strictly increasing counter component, which already makes
ids unique. -/

/-- Which implementation of `PPTOperations` is currently installed. -/
inductive Backend where
  | mock
  | bridged
deriving DecidableEq, Repr

/-- An executor WebSocket: its identity and its `readyState`
(`WebSocket.OPEN = 1`). -/
structure Conn where
  id : Nat
  readyState : Nat
deriving DecidableEq, Repr

/-- `WebSocket.OPEN`. -/
def wsOPEN : Nat := 1

/-- A `PendingRequest` entry (lines 651–655); the resolve/reject
continuations are modelled by the `settled` log of `BridgeState`, and the
timeout handle by the duration it was armed with. -/
structure PendingRequest where
  method : String
  timeoutMs : Nat
deriving DecidableEq, Repr

/-- How a promise handed out by `sendToBrowser` ended. -/
inductive PromiseOutcome where
  | resolvedWith (result : String)
  | rejectedWith (msg : String)
deriving DecidableEq, Repr

/-- The bridge server's module-level state (lines 657–660), plus two
observation logs: `settled` records every promise resolution/rejection and
`closedByRelay` every socket the relay itself closed. -/
structure BridgeState where
  browserConnection : Option Conn
  currentOperations : Backend
  requestId : Nat
  pending : List (Nat × PendingRequest)
  settled : List (Nat × PromiseOutcome)
  closedByRelay : List Nat
deriving DecidableEq, Repr

/-- Rejection message of `sendToBrowser` and of every mutating mock
operation. -/
def notConnectedMsg : String := "Browser not connected. Please open the Office Add-in."

/-- Rejection message of the 30-second correlation timer. -/
def timeoutMsg : String := "Request timeout: Browser did not respond in time"

/-- What a `sendToBrowser` call does synchronously: either the promise is
rejected at once, or a pending request with a fresh id is registered. -/
inductive SendResult where
  | rejectedNow (msg : String)
  | pendingWith (id : Nat)
deriving DecidableEq, Repr

/-- `sendToBrowser` (lines 665–691): reject immediately when
`browserConnection` is null or not `OPEN`; otherwise allocate the next
correlation id, start the 30 s timer, record the pending request and send.
The request payload does not influence the control flow and is dropped. -/
def sendToBrowser (s : BridgeState) (method : String) : BridgeState × SendResult :=
  match s.browserConnection with
  | none => (s, .rejectedNow notConnectedMsg)
  | some c =>
    if c.readyState ≠ wsOPEN then
      (s, .rejectedNow notConnectedMsg)
    else
      let id := s.requestId + 1
      ({ s with requestId := id,
                pending := (id, { method := method, timeoutMs := 30000 }) :: s.pending },
       .pendingWith id)

/-- The 30-second timer callback of `sendToBrowser` (lines 673–676): delete
the entry, reject the promise with the timeout error.  (The timer exists
exactly while the entry is pending: a handled response clears it.) -/
def fireTimeout (s : BridgeState) (id : Nat) : BridgeState :=
  { s with pending := s.pending.filter fun p => p.1 != id,
           settled := (id, .rejectedWith timeoutMsg) :: s.settled }

/-- The `ws.on('message')` handler for `type: 'response'` frames
(lines 827–850): look the id up in `pendingRequests`; if present, clear the
timer, delete the entry and settle the promise (reject on `error`, resolve on
`result`); if absent, do nothing — a late reply is silently dropped. -/
def handleResponse (s : BridgeState) (id : Nat) (error : Option String)
    (result : String) : BridgeState :=
  match s.pending.find? (fun p => p.1 == id) with
  | some _ =>
    { s with pending := s.pending.filter fun p => p.1 != id,
             settled := (id, match error with
                             | some e => .rejectedWith e
                             | none => .resolvedWith result) :: s.settled }
  | none => s

/-- `createBridgedOperations().createSlide` (lines 703–705): forwards to
`sendToBrowser('createSlide', …)`. -/
def bridgedCreateSlide (s : BridgeState) (_title _layout : String) :
    BridgeState × SendResult :=
  sendToBrowser s "createSlide"

/-- Events the bridge state reacts to.  `degrade` models the environment
moving the attached socket's `readyState` off `OPEN` (e.g. to CLOSING)
before the `close` event is delivered. -/
inductive BridgeEvent where
  | connect (ws : Nat)
  | close (ws : Nat)
  | degrade (ws : Nat) (r : Nat)
  | send (method : String)
  | response (id : Nat) (error : Option String) (result : String)
  | timeout (id : Nat)
deriving DecidableEq, Repr

/-- One event-loop turn of the bridge server.

* `connect ws` — the `wss.on('connection')` handler (lines 813–825): if a
  browser connection exists it is closed (eviction), the new socket becomes
  `browserConnection`, and the operations binding switches to bridged.
* `close ws` — the `ws.on('close')` handler (lines 852–860): only if the
  closing socket is still the current one, null the reference and switch the
  binding back to mock.
* `timeout id` — guarded by the entry being pending, since the timer lives
  exactly as long as the entry. -/
def bridgeStep (s : BridgeState) : BridgeEvent → BridgeState
  | .connect ws =>
    let s1 :=
      match s.browserConnection with
      | some old => { s with closedByRelay := old.id :: s.closedByRelay }
      | none => s
    { s1 with browserConnection := some { id := ws, readyState := wsOPEN },
              currentOperations := .bridged }
  | .close ws =>
    match s.browserConnection with
    | some c =>
      if c.id = ws then
        { s with browserConnection := none, currentOperations := .mock }
      else s
    | none => s
  | .degrade ws r =>
    match s.browserConnection with
    | some c =>
      if c.id = ws then { s with browserConnection := some { c with readyState := r } }
      else s
    | none => s
  | .send method => (sendToBrowser s method).1
  | .response id error result => handleResponse s id error result
  | .timeout id =>
    if (s.pending.find? (fun p => p.1 == id)).isSome then fireTimeout s id else s

/-- The state after `startBridgeServer` initialization (lines 809–811):
no browser connection, mock operations installed. -/
def bridgeInit : BridgeState :=
  { browserConnection := none, currentOperations := .mock, requestId := 0,
    pending := [], settled := [], closedByRelay := [] }

/-- Run the bridge from its initial state through a list of events. -/
def bridgeRun (events : List BridgeEvent) : BridgeState :=
  events.foldl bridgeStep bridgeInit

/-! ### Mock operations (`createMockOperations`, lines 740–786) -/

/-- The per-slide summary `generateFromMarkdown` answers with
(`{ id, title, layout, blockCount }`). -/
structure GenSlideSummary where
  id : String
  title : String
  layout : String
  blockCount : Nat
deriving DecidableEq, Repr

/-- The `getPresentationInfo` result shape. -/
structure PresentationInfo where
  slideCount : Nat
  currentSlideIndex : Nat
  title : String
  author : String
  slides : List GenSlideSummary
deriving DecidableEq, Repr

/-- The `listSlides` result shape. -/
structure ListSlidesResult where
  total : Nat
  slides : List GenSlideSummary
  hasMore : Bool
deriving DecidableEq, Repr

/-- The `generateFromMarkdown` result shape. -/
structure GenerateResult where
  slideCount : Nat
  slides : List GenSlideSummary
deriving DecidableEq, Repr

/-- Mock `getPresentationInfo` (lines 742–750). -/
def mockGetPresentationInfo : Except String PresentationInfo :=
  .ok { slideCount := 0, currentSlideIndex := 0,
        title := "No Presentation (Browser not connected)", author := "",
        slides := [] }

/-- Mock `createSlide` (lines 751–753): always throws. -/
def mockCreateSlide (_title _layout : String) : Except String Unit :=
  .error notConnectedMsg

/-- Mock `deleteSlide` (lines 754–756): always throws. -/
def mockDeleteSlide (_slideId : String) : Except String Unit :=
  .error notConnectedMsg

/-- Mock `addText` (lines 757–759): always throws. -/
def mockAddText (_slideId _content : String) : Except String Unit :=
  .error notConnectedMsg

/-- Mock `addCode` (lines 760–762): always throws. -/
def mockAddCode (_slideId _code _language : String) : Except String Unit :=
  .error notConnectedMsg

/-- Mock `addMermaid` (lines 763–765): always throws. -/
def mockAddMermaid (_slideId _mermaidCode : String) : Except String Unit :=
  .error notConnectedMsg

/-- Mock `addImage` (lines 766–768): always throws. -/
def mockAddImage (_slideId _imageData : String) : Except String Unit :=
  .error notConnectedMsg

/-- Mock `listSlides` (lines 769–771). -/
def mockListSlides (_limit _offset : Nat) : Except String ListSlidesResult :=
  .ok { total := 0, slides := [], hasMore := false }

/-- Mock `generateFromMarkdown` (lines 772–784): parses the markdown locally
(no browser needed) and answers with the slide summaries. -/
def mockGenerateFromMarkdown (markdown : String) : Except String GenerateResult :=
  let slides := parseMarkdown markdown
  .ok { slideCount := slides.length,
        slides := slides.enum.map fun p =>
          { id := "slide-" ++ toString p.1, title := p.2.title,
            layout := p.2.layout.toStr, blockCount := p.2.blocks.length } }

/-! ### Relay theorems -/

/-- One step preserves the backend/connection consistency invariant. -/
theorem bridgeStep_preserves_consistency (s : BridgeState) (e : BridgeEvent)
    (h : s.currentOperations = .bridged ↔ s.browserConnection ≠ none) :
    (bridgeStep s e).currentOperations = .bridged ↔
      (bridgeStep s e).browserConnection ≠ none := by
  cases e with
  | connect ws => cases hc : s.browserConnection <;> simp [bridgeStep, hc]
  | close ws =>
    cases hc : s.browserConnection with
    | none => simpa [bridgeStep, hc] using h
    | some c =>
      by_cases hid : c.id = ws
      · simp [bridgeStep, hc, hid]
      · simpa [bridgeStep, hc, hid] using h
  | degrade ws r =>
    cases hc : s.browserConnection with
    | none => simpa [bridgeStep, hc] using h
    | some c =>
      by_cases hid : c.id = ws
      · simp [bridgeStep, hc, hid, h]
      · simpa [bridgeStep, hc, hid] using h
  | send method =>
    cases hc : s.browserConnection with
    | none => simpa [bridgeStep, sendToBrowser, hc] using h
    | some c =>
      by_cases hr : c.readyState ≠ wsOPEN
      · simpa [bridgeStep, sendToBrowser, hc, hr] using h
      · simpa [bridgeStep, sendToBrowser, hc, hr] using h
  | response id error result =>
    unfold bridgeStep handleResponse
    cases hfind : s.pending.find? (fun p => p.1 == id) with
    | none => simpa [hfind] using h
    | some v => simpa [hfind] using h
  | timeout id =>
    unfold bridgeStep
    by_cases hp : (s.pending.find? (fun p => p.1 == id)).isSome <;>
      simpa [hp, fireTimeout] using h

/-- C2: at every observable instant of the relay (i.e. in every state
reachable from initialization through fully handled events), the executor
connection reference is non-null exactly when the bound operations
implementation is the bridged (Remote) backend; when it is null the bound
implementation is the mock backend. -/
theorem backend_matches_connection (events : List BridgeEvent) :
    ((bridgeRun events).currentOperations = .bridged ↔
      (bridgeRun events).browserConnection ≠ none) ∧
    ((bridgeRun events).browserConnection = none →
      (bridgeRun events).currentOperations = .mock) := by
  have main : ∀ (es : List BridgeEvent) (s : BridgeState),
      (s.currentOperations = .bridged ↔ s.browserConnection ≠ none) →
      ((es.foldl bridgeStep s).currentOperations = .bridged ↔
        (es.foldl bridgeStep s).browserConnection ≠ none) := by
    intro es
    induction es with
    | nil => intro s h; simpa using h
    | cons e es ih => intro s h; exact ih _ (bridgeStep_preserves_consistency s e h)
  have hiff : (bridgeRun events).currentOperations = .bridged ↔
      (bridgeRun events).browserConnection ≠ none :=
    main events bridgeInit (by simp [bridgeInit])
  refine ⟨hiff, fun hnone => ?_⟩
  cases hops : (bridgeRun events).currentOperations with
  | mock => rfl
  | bridged => exact absurd hnone (hiff.mp hops)

/-- C5: accepting a new executor connection while one is attached closes
(evicts) the prior one; afterwards exactly the new connection is attached,
the bridged backend is bound, and subsequent bridged calls are relayed (a
`sendToBrowser` on the new state registers a pending request rather than
rejecting). -/
theorem connect_evicts_prior_connection (s : BridgeState) (old : Conn) (ws : Nat)
    (h : s.browserConnection = some old) :
    (bridgeStep s (.connect ws)).browserConnection =
        some { id := ws, readyState := wsOPEN } ∧
    old.id ∈ (bridgeStep s (.connect ws)).closedByRelay ∧
    (bridgeStep s (.connect ws)).currentOperations = .bridged ∧
    ∀ method, (sendToBrowser (bridgeStep s (.connect ws)) method).2 =
      .pendingWith ((bridgeStep s (.connect ws)).requestId + 1) := by
  refine ⟨by simp [bridgeStep, h], by simp [bridgeStep, h], by simp [bridgeStep, h], ?_⟩
  intro method
  simp [bridgeStep, h, sendToBrowser]

/-- Witness for C5 at a concrete state: executor 7 attached, executor 9
connects; 9 becomes the attached connection and 7 is closed. -/
theorem connect_evicts_prior_connection_witness :
    (bridgeStep { bridgeInit with
                    browserConnection := some { id := 7, readyState := wsOPEN },
                    currentOperations := .bridged } (.connect 9)).browserConnection =
        some { id := 9, readyState := wsOPEN } ∧
    (7 : Nat) ∈ (bridgeStep { bridgeInit with
                    browserConnection := some { id := 7, readyState := wsOPEN },
                    currentOperations := .bridged } (.connect 9)).closedByRelay ∧
    (bridgeStep { bridgeInit with
                    browserConnection := some { id := 7, readyState := wsOPEN },
                    currentOperations := .bridged } (.connect 9)).currentOperations =
        .bridged ∧
    ∀ method,
      (sendToBrowser (bridgeStep { bridgeInit with
                    browserConnection := some { id := 7, readyState := wsOPEN },
                    currentOperations := .bridged } (.connect 9)) method).2 =
        .pendingWith ((bridgeStep { bridgeInit with
                    browserConnection := some { id := 7, readyState := wsOPEN },
                    currentOperations := .bridged } (.connect 9)).requestId + 1) :=
  connect_evicts_prior_connection _ { id := 7, readyState := wsOPEN } 9 rfl

/-- In a key-distinct association list, filtering key `id` out does not
change lookups of any other key `j`. -/
theorem find?_filter_ne_key {α : Type} (l : List (Nat × α)) (id j : Nat)
    (h : j ≠ id) :
    (l.filter fun p => p.1 != id).find? (fun p => p.1 == j) =
      l.find? (fun p => p.1 == j) := by
  induction l with
  | nil => rfl
  | cons a t ih =>
    by_cases ha : a.1 = id
    · have h1 : (a.1 != id) = false := by simp [ha]
      have h2 : (a.1 == j) = false := by
        rw [ha, beq_eq_false_iff_ne]
        exact Ne.symm h
      simp [List.filter_cons, List.find?_cons, h1, h2, ih]
    · have h1 : (a.1 != id) = true := by simp [ha]
      simp only [List.filter_cons, h1, if_true]
      rw [List.find?_cons, List.find?_cons]
      cases haj : (a.1 == j) <;> simp [ih]

/-- After filtering key `id` out, looking `id` up finds nothing. -/
theorem find?_filter_self {α : Type} (l : List (Nat × α)) (id : Nat) :
    (l.filter fun p => p.1 != id).find? (fun p => p.1 == id) = none := by
  induction l with
  | nil => rfl
  | cons a t ih =>
    by_cases ha : a.1 = id
    · have h1 : (a.1 != id) = false := by simp [ha]
      simp [List.filter_cons, h1, ih]
    · have h1 : (a.1 != id) = true := by simp [ha]
      have h2 : (a.1 == id) = false := by
        rw [beq_eq_false_iff_ne]
        exact ha
      simp [List.filter_cons, h1, List.find?_cons, h2, ih]

/-- C3: pending requests are armed with the fixed 30 s window; when the
timer fires for a pending id, the entry is removed from the map and the
promise is rejected with the timeout error; a reply arriving for an id not
(or no longer) in the map is silently dropped (the state is unchanged); and
handling a reply for id never touches any other id's pending entry or
settled outcome. -/
theorem timeout_rejects_and_late_reply_dropped (s : BridgeState) (id : Nat)
    (error : Option String) (result : String) :
    (∀ method c, s.browserConnection = some c → c.readyState = wsOPEN →
      (sendToBrowser s method).1.pending =
        (s.requestId + 1, { method := method, timeoutMs := 30000 }) :: s.pending) ∧
    ((s.pending.find? (fun p => p.1 == id)).isSome →
      (fireTimeout s id).pending.find? (fun p => p.1 == id) = none ∧
      (fireTimeout s id).settled.find? (fun p => p.1 == id) =
        some (id, .rejectedWith timeoutMsg)) ∧
    (s.pending.find? (fun p => p.1 == id) = none →
      handleResponse s id error result = s) ∧
    (∀ j, j ≠ id →
      (handleResponse s id error result).pending.find? (fun p => p.1 == j) =
        s.pending.find? (fun p => p.1 == j) ∧
      (handleResponse s id error result).settled.find? (fun p => p.1 == j) =
        s.settled.find? (fun p => p.1 == j)) := by
  refine ⟨?_, ?_, ?_, ?_⟩
  · intro method c hc hr
    simp [sendToBrowser, hc, hr]
  · intro _
    exact ⟨find?_filter_self s.pending id, by simp [fireTimeout]⟩
  · intro h
    simp [handleResponse, h]
  · intro j hj
    unfold handleResponse
    cases hfind : s.pending.find? (fun p => p.1 == id) with
    | none => exact ⟨rfl, rfl⟩
    | some v =>
      have hne : (id == j) = false := by
        simp
        exact fun hh => hj hh.symm
      exact ⟨find?_filter_ne_key s.pending id j hj,
             by simp [List.find?_cons, hne]⟩

/-- Witness for C3 at a concrete state: request 3 pending; its timeout
removes and rejects it; a late reply for 3 on the emptied map is dropped;
handling a reply for 3 leaves request 5's entry and outcome alone. -/
theorem timeout_rejects_witness :
    ((fireTimeout { bridgeInit with
        pending := [(3, { method := "createSlide", timeoutMs := 30000 })] } 3).pending.find?
          (fun p => p.1 == 3) = none ∧
      (fireTimeout { bridgeInit with
        pending := [(3, { method := "createSlide", timeoutMs := 30000 })] } 3).settled.find?
          (fun p => p.1 == 3) = some (3, .rejectedWith timeoutMsg)) ∧
    handleResponse bridgeInit 3 none "late" = bridgeInit ∧
    ((handleResponse { bridgeInit with
        pending := [(5, { method := "addText", timeoutMs := 30000 })] } 3 none "r").pending.find?
          (fun p => p.1 == 5) =
        ({ bridgeInit with
            pending := [(5, { method := "addText", timeoutMs := 30000 })] } :
          BridgeState).pending.find? (fun p => p.1 == 5)) :=
  ⟨(timeout_rejects_and_late_reply_dropped
      { bridgeInit with pending := [(3, { method := "createSlide", timeoutMs := 30000 })] }
      3 none "late").2.1 (by decide),
   (timeout_rejects_and_late_reply_dropped bridgeInit 3 none "late").2.2.1 (by decide),
   ((timeout_rejects_and_late_reply_dropped
      { bridgeInit with pending := [(5, { method := "addText", timeoutMs := 30000 })] }
      3 none "r").2.2.2 5 (by decide)).1⟩

/-- C4 counterexample: with no executor attached the relay's bound backend
is the mock one (initial state), and invoking `getPresentationInfo` there
resolves with a mocked success — it does not reject — refuting "every
operation invoked through the relay while no executor is attached rejects". -/
theorem read_op_mock_success_when_disconnected :
    bridgeInit.browserConnection = none ∧
    bridgeInit.currentOperations = .mock ∧
    mockGetPresentationInfo =
      .ok { slideCount := 0, currentSlideIndex := 0,
            title := "No Presentation (Browser not connected)", author := "",
            slides := [] } :=
  ⟨rfl, rfl, rfl⟩

/-- C4 (amended): every operation forwarded to the executor while the
connection reference is null or the socket is not OPEN rejects immediately
with the not-connected error — no queueing, no retry, the state is
untouched — and every mutating mock operation rejects with the same error;
in particular `createSlide` rejects on both paths. -/
theorem not_connected_rejects_immediately (s : BridgeState) (method : String)
    (h : ∀ c, s.browserConnection = some c → c.readyState ≠ wsOPEN) :
    sendToBrowser s method =
      (s, .rejectedNow "Browser not connected. Please open the Office Add-in.") ∧
    (∀ t l, bridgedCreateSlide s t l =
      (s, .rejectedNow "Browser not connected. Please open the Office Add-in.")) ∧
    (∀ t l, mockCreateSlide t l =
      .error "Browser not connected. Please open the Office Add-in.") ∧
    (∀ a, mockDeleteSlide a =
      .error "Browser not connected. Please open the Office Add-in.") ∧
    (∀ a b, mockAddText a b =
      .error "Browser not connected. Please open the Office Add-in.") ∧
    (∀ a b c, mockAddCode a b c =
      .error "Browser not connected. Please open the Office Add-in.") ∧
    (∀ a b, mockAddMermaid a b =
      .error "Browser not connected. Please open the Office Add-in.") ∧
    (∀ a b, mockAddImage a b =
      .error "Browser not connected. Please open the Office Add-in.") := by
  have hsend : ∀ m, sendToBrowser s m =
      (s, .rejectedNow "Browser not connected. Please open the Office Add-in.") := by
    intro m
    cases hc : s.browserConnection with
    | none => simp [sendToBrowser, hc, notConnectedMsg]
    | some c => simp [sendToBrowser, hc, h c hc, notConnectedMsg]
  exact ⟨hsend method, fun _ _ => hsend "createSlide",
         fun _ _ => rfl, fun _ => rfl, fun _ _ => rfl, fun _ _ _ => rfl,
         fun _ _ => rfl, fun _ _ => rfl⟩

/-- Witness for C4's amended statement at the initial (no executor) state. -/
theorem not_connected_rejects_immediately_witness :
    sendToBrowser bridgeInit "createSlide" =
      (bridgeInit, .rejectedNow "Browser not connected. Please open the Office Add-in.") ∧
    (∀ t l, bridgedCreateSlide bridgeInit t l =
      (bridgeInit, .rejectedNow "Browser not connected. Please open the Office Add-in.")) ∧
    (∀ t l, mockCreateSlide t l =
      .error "Browser not connected. Please open the Office Add-in.") ∧
    (∀ a, mockDeleteSlide a =
      .error "Browser not connected. Please open the Office Add-in.") ∧
    (∀ a b, mockAddText a b =
      .error "Browser not connected. Please open the Office Add-in.") ∧
    (∀ a b c, mockAddCode a b c =
      .error "Browser not connected. Please open the Office Add-in.") ∧
    (∀ a b, mockAddMermaid a b =
      .error "Browser not connected. Please open the Office Add-in.") ∧
    (∀ a b, mockAddImage a b =
      .error "Browser not connected. Please open the Office Add-in.") :=
  not_connected_rejects_immediately bridgeInit "createSlide"
    (fun c hc => by simp [bridgeInit] at hc)

/-- C10: the mock backend resolves the read-style operations without an
executor — `getPresentationInfo` with `slideCount` 0, `listSlides` with an
empty page and `hasMore` false, `generateFromMarkdown` with the locally
parsed slide summaries — while every mutating operation rejects with
`'Browser not connected. Please open the Office Add-in.'`. -/
theorem mock_backend_read_write_split :
    mockGetPresentationInfo =
      .ok { slideCount := 0, currentSlideIndex := 0,
            title := "No Presentation (Browser not connected)", author := "",
            slides := [] } ∧
    (∀ limit offset, mockListSlides limit offset =
      .ok { total := 0, slides := [], hasMore := false }) ∧
    (∀ md, mockGenerateFromMarkdown md =
      .ok { slideCount := (parseMarkdown md).length,
            slides := (parseMarkdown md).enum.map fun p =>
              { id := "slide-" ++ toString p.1, title := p.2.title,
                layout := p.2.layout.toStr, blockCount := p.2.blocks.length } }) ∧
    (∀ a b, mockCreateSlide a b =
      .error "Browser not connected. Please open the Office Add-in.") ∧
    (∀ a, mockDeleteSlide a =
      .error "Browser not connected. Please open the Office Add-in.") ∧
    (∀ a b, mockAddText a b =
      .error "Browser not connected. Please open the Office Add-in.") ∧
    (∀ a b c, mockAddCode a b c =
      .error "Browser not connected. Please open the Office Add-in.") ∧
    (∀ a b, mockAddMermaid a b =
      .error "Browser not connected. Please open the Office Add-in.") ∧
    (∀ a b, mockAddImage a b =
      .error "Browser not connected. Please open the Office Add-in.") :=
  ⟨rfl, fun _ _ => rfl, fun _ => rfl, fun _ _ => rfl, fun _ => rfl,
   fun _ _ => rfl, fun _ _ _ => rfl, fun _ _ => rfl, fun _ _ => rfl⟩

/-! ## Bridge client lifecycle (`MCPBridgeClient`, client module)

The client owns a WebSocket toward the relay with a four-state lifecycle and
exponential-backoff reconnection.  Each method and socket event handler of
the class becomes a step function on `ClientState`.  The reconnect delay
`2000 * 1.5^attempts` is a JavaScript double; for every reachable exponent
(≤ 10) it is exactly representable, so `ℚ` models it without error.
`reconnectTimer` holds the delay of a live (armed, unfired) timer. -/

/-- `ConnectionState` of the client. -/
inductive ConnState where
  | disconnected
  | connecting
  | connected
  | error
deriving DecidableEq, Repr

/-- The mutable fields of `MCPBridgeClient` (lines 33–41); `wsRef` models
`this.ws !== null`. -/
structure ClientState where
  connState : ConnState
  reconnectAttempts : Nat
  maxReconnectAttempts : Nat
  reconnectDelay : ℚ
  reconnectTimer : Option ℚ
  wsRef : Bool
deriving DecidableEq, Repr

/-- A freshly constructed client (lines 33–46 field initializers). -/
def clientInit : ClientState :=
  { connState := .disconnected, reconnectAttempts := 0,
    maxReconnectAttempts := 10, reconnectDelay := 2000,
    reconnectTimer := none, wsRef := false }

/-- `connect()` (lines 51–96): a no-op when already `connecting` or
`connected`; otherwise transition to `connecting` and create the socket. -/
def clientConnect (s : ClientState) : ClientState :=
  if s.connState = .connecting ∨ s.connState = .connected then s
  else { s with connState := .connecting, wsRef := true }

/-- `scheduleReconnect()` (lines 404–417): stop when the attempt counter has
reached the maximum; otherwise arm a timer for
`reconnectDelay * 1.5 ^ reconnectAttempts` milliseconds. -/
def scheduleReconnect (s : ClientState) : ClientState :=
  if s.reconnectAttempts ≥ s.maxReconnectAttempts then s
  else { s with reconnectTimer :=
                  some (s.reconnectDelay * (3 / 2 : ℚ) ^ s.reconnectAttempts) }

/-- The `setTimeout` callback armed by `scheduleReconnect` (lines 413–416):
increment the attempt counter, then call `connect()`. -/
def fireReconnectTimer (s : ClientState) : ClientState :=
  clientConnect { s with reconnectTimer := none,
                         reconnectAttempts := s.reconnectAttempts + 1 }

/-- `ws.onopen` (lines 62–67): transition to `connected` and reset the
attempt counter to 0. -/
def handleOpen (s : ClientState) : ClientState :=
  { s with connState := .connected, reconnectAttempts := 0 }

/-- `ws.onerror` (lines 86–90): transition to `error`. -/
def handleError (s : ClientState) : ClientState :=
  { s with connState := .error }

/-- `ws.onclose` (lines 78–84): null the socket reference, transition to
`disconnected`, and unconditionally call `scheduleReconnect()`.  The handler
is attached to the socket object itself, so it also fires for a socket that
an explicit `disconnect()` closed. -/
def handleClose (s : ClientState) : ClientState :=
  scheduleReconnect { s with wsRef := false, connState := .disconnected }

/-- `disconnect()` (lines 101–113): cancel any pending reconnect timer,
close the socket (`close(1000, 'Client disconnect')`) and null its
reference, transition to `disconnected`.  The closed socket's close event is
still delivered later. -/
def clientDisconnect (s : ClientState) : ClientState :=
  { s with reconnectTimer := none, wsRef := false, connState := .disconnected }

/-- C8: with the default configuration (maximum 10 attempts, 2000 ms base),
the reconnect scheduler invoked at attempt count `n ≥ 10` does nothing (no
timer, no attempt); at `n < 10` it arms a timer of `2000 * 1.5^n` ms whose
firing increments the counter to `n + 1` and calls `connect()` (entering
`connecting` from any non-connected state); the delays for `n = 0, 1, 2` are
2000 ms, 3000 ms and 4500 ms; and a successful socket open resets the
counter to 0. -/
theorem reconnect_backoff_schedule (s : ClientState)
    (hmax : s.maxReconnectAttempts = 10) (hbase : s.reconnectDelay = 2000) :
    (10 ≤ s.reconnectAttempts → scheduleReconnect s = s) ∧
    (s.reconnectAttempts < 10 →
      (scheduleReconnect s).reconnectTimer =
        some (2000 * (3 / 2 : ℚ) ^ s.reconnectAttempts) ∧
      (fireReconnectTimer (scheduleReconnect s)).reconnectAttempts =
        s.reconnectAttempts + 1 ∧
      (s.connState = .disconnected ∨ s.connState = .error →
        (fireReconnectTimer (scheduleReconnect s)).connState = .connecting)) ∧
    (2000 * (3 / 2 : ℚ) ^ (0 : Nat) = 2000 ∧
     2000 * (3 / 2 : ℚ) ^ (1 : Nat) = 3000 ∧
     2000 * (3 / 2 : ℚ) ^ (2 : Nat) = 4500) ∧
    (handleOpen s).reconnectAttempts = 0 := by
  refine ⟨?_, ?_, ⟨by norm_num, by norm_num, by norm_num⟩, rfl⟩
  · intro hge
    rw [scheduleReconnect, if_pos (by rw [hmax]; exact hge)]
  · intro hlt
    have hsched : scheduleReconnect s =
        { s with reconnectTimer := some (2000 * (3 / 2 : ℚ) ^ s.reconnectAttempts) } := by
      rw [scheduleReconnect, if_neg (by rw [hmax]; exact not_le.mpr hlt), hbase]
    refine ⟨by rw [hsched], ?_, ?_⟩
    · rw [hsched]
      unfold fireReconnectTimer clientConnect
      split <;> rfl
    · intro hstate
      rw [hsched]
      unfold fireReconnectTimer clientConnect
      rcases hstate with h | h <;> rw [h] <;> simp

/-- Witness for C8 at a concrete client: attempts = 2, defaults otherwise. -/
theorem reconnect_backoff_schedule_witness :
    (10 ≤ ({ clientInit with reconnectAttempts := 2 } : ClientState).reconnectAttempts →
      scheduleReconnect { clientInit with reconnectAttempts := 2 } =
        { clientInit with reconnectAttempts := 2 }) ∧
    (({ clientInit with reconnectAttempts := 2 } : ClientState).reconnectAttempts < 10 →
      (scheduleReconnect { clientInit with reconnectAttempts := 2 }).reconnectTimer =
        some (2000 * (3 / 2 : ℚ) ^
          ({ clientInit with reconnectAttempts := 2 } : ClientState).reconnectAttempts) ∧
      (fireReconnectTimer (scheduleReconnect
          { clientInit with reconnectAttempts := 2 })).reconnectAttempts =
        ({ clientInit with reconnectAttempts := 2 } : ClientState).reconnectAttempts + 1 ∧
      (({ clientInit with reconnectAttempts := 2 } : ClientState).connState = .disconnected ∨
       ({ clientInit with reconnectAttempts := 2 } : ClientState).connState = .error →
        (fireReconnectTimer (scheduleReconnect
            { clientInit with reconnectAttempts := 2 })).connState = .connecting)) ∧
    (2000 * (3 / 2 : ℚ) ^ (0 : Nat) = 2000 ∧
     2000 * (3 / 2 : ℚ) ^ (1 : Nat) = 3000 ∧
     2000 * (3 / 2 : ℚ) ^ (2 : Nat) = 4500) ∧
    (handleOpen { clientInit with reconnectAttempts := 2 }).reconnectAttempts = 0 :=
  reconnect_backoff_schedule { clientInit with reconnectAttempts := 2 } rfl rfl

/-- C9: code evaluation on the failing trace.  A client connects, the socket
opens, and the operator calls `disconnect()` — state `disconnected`, no
timer.  But the close event of the very socket `disconnect()` closed is
still delivered, and the close handler unconditionally schedules a
reconnect: a 2000 ms timer is armed, and when it fires the client re-enters
`connecting` although `connect()` was never called after the disconnect —
refuting the claim that no reconnect happens without an explicit
`connect()`. -/
theorem disconnect_then_close_still_reconnects :
    (clientDisconnect (handleOpen (clientConnect clientInit))).connState =
        .disconnected ∧
    (clientDisconnect (handleOpen (clientConnect clientInit))).reconnectTimer =
        none ∧
    (handleClose (clientDisconnect (handleOpen (clientConnect
        clientInit)))).reconnectTimer = some 2000 ∧
    (fireReconnectTimer (handleClose (clientDisconnect (handleOpen
        (clientConnect clientInit))))).connState = .connecting := by
  refine ⟨rfl, rfl, ?_, rfl⟩
  have h : (handleClose (clientDisconnect (handleOpen (clientConnect
      clientInit)))).reconnectTimer = some ((2000 : ℚ) * (3 / 2 : ℚ) ^ (0 : Nat)) := rfl
  rw [h]
  norm_num

/-! ## The `ppt_from_markdown` tool handler (MCP server document, lines 281–345)

The handler extracts slide titles with the JavaScript regular expression
`/^#{1,2}\s+(.+)$/gm` run in an `exec` loop, builds the result object, and
— lines 313–324 — computes a serialized text enforcing the 25,000-character
response ceiling.  We embed the regex scan with its exact semantics
(multiline `^`/`$`, greedy `#{1,2}` and `\s+` with backtracking, `.` not
matching line terminators, `lastIndex` resuming after each match) and
`JSON.stringify(…, null, 2)` for the result shape. -/

/-- JavaScript `\s` (the `RegExp` whitespace class). -/
def isJsWS (c : Char) : Bool :=
  c = ' ' || c = '\t' || c = '\n' || c = '\r' || c = '\u000b' || c = '\u000c' ||
  c = '\u00a0' || c = '\u1680' || (0x2000 ≤ c.toNat && c.toNat ≤ 0x200a) ||
  c = '\u2028' || c = '\u2029' || c = '\u202f' || c = '\u205f' ||
  c = '\u3000' || c = '\ufeff'

/-- JavaScript `.` without the `s` flag: anything but a line terminator. -/
def isDotChar (c : Char) : Bool :=
  !(c = '\n' || c = '\r' || c = '\u2028' || c = '\u2029')

/-- A JavaScript line terminator (what multiline `^`/`$` anchor around). -/
def isLineTerm (c : Char) : Bool :=
  c = '\n' || c = '\r' || c = '\u2028' || c = '\u2029'

/-- Match `\s+(.+)$` at the head of `cs`, trying to give `\s+` `k` characters
(greedy: `k` counts down from the maximal whitespace run).  `(.+)` then takes
the maximal run of non-line-terminator characters, after which `$` holds
automatically (the run ends at a line terminator or at the end of input).
Returns the capture and the remaining input after it (= `lastIndex`). -/
def backtrackWS (cs : List Char) : Nat → Option (List Char × List Char)
  | 0 => none
  | k + 1 =>
    match cs.drop (k + 1) with
    | c :: _ =>
      if isDotChar c then
        some ((cs.drop (k + 1)).takeWhile isDotChar,
              (cs.drop (k + 1)).dropWhile isDotChar)
      else backtrackWS cs k
    | [] => backtrackWS cs k

/-- Match `\s+(.+)$` at the head of `cs`. -/
def matchAfterHashes (cs : List Char) : Option (List Char × List Char) :=
  backtrackWS cs (cs.takeWhile isJsWS).length

/-- Match `#{1,2}\s+(.+)$` at the head of `cs` (at a `^` position): try two
hashes first, backtracking to one. -/
def execHeading : List Char → Option (List Char × List Char)
  | '#' :: '#' :: rest =>
    (match matchAfterHashes rest with
     | some r => some r
     | none => matchAfterHashes ('#' :: rest))
  | '#' :: rest => matchAfterHashes rest
  | _ => none

/-- The `headingRegex.exec` loop (lines 283–295): repeatedly find the next
match at a line-start position at or after `lastIndex`, collecting group-1
captures.  `atLineStart` tracks whether the current position follows a line
terminator (or is position 0); fuel bounds the scan by the input length
(every step consumes at least one character). -/
def scanHeadings : Nat → List Char → Bool → List (List Char)
  | 0, _, _ => []
  | _, [], _ => []
  | fuel + 1, c :: rest, atLineStart =>
    if atLineStart then
      match execHeading (c :: rest) with
      | some (cap, after) => cap :: scanHeadings fuel after false
      | none => scanHeadings fuel rest (isLineTerm c)
    else scanHeadings fuel rest (isLineTerm c)

/-- One entry of the handler's `slides` array
(`{ id, title, layout, block_count }`). -/
structure MDSlideEntry where
  id : String
  title : String
  layout : String
  block_count : Nat
deriving DecidableEq, Repr

/-- The handler's result object.  The optional fields model the JavaScript
object spread in the (dead) truncation branch: a key is present exactly when
the option is `some`. -/
structure MDOutput where
  slide_count : Nat
  slides : List MDSlideEntry
  success : Bool
  truncated : Option Bool := none
  truncation_message : Option String := none
deriving DecidableEq, Repr

/-- The slide list built by the handler's regex loop (lines 283–305): one
entry per heading match with ids `slide-0`, `slide-1`, …; a single
`Untitled` entry when there is no match. -/
def pptFromMarkdownSlides (markdown : String) : List MDSlideEntry :=
  let caps := scanHeadings markdown.data.length markdown.data true
  let slides := caps.enum.map fun p =>
    ({ id := "slide-" ++ toString p.1, title := ⟨p.2⟩,
       layout := "content", block_count := 1 } : MDSlideEntry)
  if slides.isEmpty then
    [{ id := "slide-0", title := "Untitled", layout := "content", block_count := 1 }]
  else slides

/-- `CHARACTER_LIMIT` (line 32). -/
def CHARACTER_LIMIT : Nat := 25000

/-- Left brace character (written numerically). -/
def lbrace : Char := Char.ofNat 123

/-- Right brace character (written numerically). -/
def rbrace : Char := Char.ofNat 125

/-- Lower-case hexadecimal digit. -/
def hexDigit (n : Nat) : Char :=
  if n < 10 then Char.ofNat (48 + n) else Char.ofNat (87 + n)

/-- JSON string escaping, as `JSON.stringify` performs it. -/
def escapeJSONChar (c : Char) : List Char :=
  if c = '"' then ['\\', '"']
  else if c = '\\' then ['\\', '\\']
  else if c = '\u0008' then ['\\', 'b']
  else if c = '\u000c' then ['\\', 'f']
  else if c = '\n' then ['\\', 'n']
  else if c = '\r' then ['\\', 'r']
  else if c = '\t' then ['\\', 't']
  else if c.toNat < 0x20 then
    ['\\', 'u', '0', '0', hexDigit (c.toNat / 16), hexDigit (c.toNat % 16)]
  else [c]

/-- A JSON-quoted string. -/
def qstr (s : String) : List Char :=
  '"' :: (s.data.map escapeJSONChar).flatten ++ ['"']

/-- `true`/`false`. -/
def boolChars (b : Bool) : List Char := (cond b "true" "false").data

/-- One `slides` element as `JSON.stringify(…, null, 2)` prints it at array
depth (element indent 4, field indent 6). -/
def slideEntryChars (s : MDSlideEntry) : List Char :=
  "    ".data ++ lbrace :: '\n' ::
  "      ".data ++ qstr "id" ++ ':' :: ' ' :: qstr s.id ++ ',' :: '\n' ::
  "      ".data ++ qstr "title" ++ ':' :: ' ' :: qstr s.title ++ ',' :: '\n' ::
  "      ".data ++ qstr "layout" ++ ':' :: ' ' :: qstr s.layout ++ ',' :: '\n' ::
  "      ".data ++ qstr "block_count" ++ ':' :: ' ' :: (Nat.repr s.block_count).data ++ '\n' ::
  "    ".data ++ [rbrace]

/-- The `slides` elements joined with `,\n`. -/
def slideListChars : List MDSlideEntry → List Char
  | [] => []
  | [s] => slideEntryChars s
  | s :: rest => slideEntryChars s ++ ',' :: '\n' :: slideListChars rest

/-- The `slides` array value (closing bracket at indent 2). -/
def slidesValueChars (ss : List MDSlideEntry) : List Char :=
  match ss with
  | [] => ['[', ']']
  | _ => '[' :: '\n' :: slideListChars ss ++ '\n' :: "  ]".data

/-- Modelled from the spec: `JSON.stringify(output, null, 2)` (a JavaScript
builtin) on the handler's result object — two-space indentation, keys in
insertion order (`slide_count`, `slides`, `success`, then `truncated` and
`truncation_message` when present). -/
def stringifyMDOutput (o : MDOutput) : String :=
  ⟨lbrace :: '\n' ::
   "  ".data ++ qstr "slide_count" ++ ':' :: ' ' :: (Nat.repr o.slide_count).data ++ ',' :: '\n' ::
   "  ".data ++ qstr "slides" ++ ':' :: ' ' :: slidesValueChars o.slides ++ ',' :: '\n' ::
   "  ".data ++ qstr "success" ++ ':' :: ' ' :: boolChars o.success ++
   (match o.truncated with
    | some b => ',' :: '\n' :: "  ".data ++ qstr "truncated" ++ ':' :: ' ' :: boolChars b
    | none => []) ++
   (match o.truncation_message with
    | some m => ',' :: '\n' :: "  ".data ++ qstr "truncation_message" ++ ':' :: ' ' :: qstr m
    | none => []) ++
   '\n' :: [rbrace]⟩

/-- The tool's response-format selector. -/
inductive ResponseFormat where
  | json
  | markdown
deriving DecidableEq, Repr

/-- The markdown renderer the handler passes to `formatResponse`
(lines 329–338). -/
def mdFromMarkdownFormatter (data : MDOutput) : String :=
  let ls := ["# Slides Generated\n",
             "Created " ++ toString data.slide_count ++ " slides:\n"]
  let ls := ls ++ (data.slides.map fun s =>
    ["## " ++ s.title, "- ID: " ++ s.id, "- Layout: " ++ s.layout, ""]).flatten
  String.intercalate "\n" ls

/-- `formatResponse` (lines 37–47), instantiated at the markdown tool's
result type: render as markdown or as `JSON.stringify(data, null, 2)`, and
pass the data through unchanged as the structured value. -/
def formatResponse (data : MDOutput) (format : ResponseFormat)
    (markdownFormatter : MDOutput → String) : String × MDOutput :=
  (if format = .markdown then markdownFormatter data else stringifyMDOutput data,
   data)

/-- What the handler returns: `content: [{type:'text', text}]` and
`structuredContent`. -/
structure ToolResponse where
  contentText : String
  structuredContent : MDOutput
deriving DecidableEq, Repr

/-- The `ppt_from_markdown` handler (lines 281–345).  Lines 313–324 compute
a serialized `text` with the truncation policy applied — and then never use
it: the local is shadowed by the `formatResponse` result built from the
original `output` (lines 326–339), which is what the returned response
carries.  The dead computation is kept here exactly as in the source. -/
def pptFromMarkdownHandler (markdown : String) (fmt : ResponseFormat) : ToolResponse :=
  let slides := pptFromMarkdownSlides markdown
  let output : MDOutput :=
    { slide_count := slides.length, slides := slides, success := true }
  let _text : String :=
    let text0 := stringifyMDOutput output
    if text0.length > CHARACTER_LIMIT then
      let truncatedSlides := slides.take ((slides.length + 1) / 2)
      stringifyMDOutput
        { slide_count := output.slide_count, slides := truncatedSlides,
          success := output.success, truncated := some true,
          truncation_message := some ("Response truncated from " ++
            toString slides.length ++ " to " ++
            toString truncatedSlides.length ++ " slides.") }
    else text0
  let fr := formatResponse output fmt mdFromMarkdownFormatter
  { contentText := fr.1, structuredContent := fr.2 }

/-- The failing input: two markdown heading lines, each `# ` followed by
13,000 `a`s.  The serialized result object then exceeds the
25,000-character ceiling. -/
def c1Chars : List Char :=
  '#' :: ' ' :: (List.replicate 13000 'a' ++
    '\n' :: '#' :: ' ' :: List.replicate 13000 'a')

/-- The failing input as a string. -/
def c1Input : String := ⟨c1Chars⟩

/-- An empty line list scans to no matches, whatever the fuel. -/
theorem scanHeadings_nil (fuel : Nat) (b : Bool) : scanHeadings fuel [] b = [] := by
  cases fuel <;> rfl

/-- `takeWhile` over a replicate of a satisfying character takes it all. -/
theorem takeWhile_replicate_eq (p : Char → Bool) (a : Char) (h : p a = true)
    (n : Nat) : (List.replicate n a).takeWhile p = List.replicate n a := by
  induction n with
  | zero => rfl
  | succ m ih => simp [List.replicate_succ, List.takeWhile_cons, h, ih]

/-- `dropWhile` over a replicate of a satisfying character drops it all. -/
theorem dropWhile_replicate_eq (p : Char → Bool) (a : Char) (h : p a = true)
    (n : Nat) : (List.replicate n a).dropWhile p = [] := by
  induction n with
  | zero => rfl
  | succ m ih => simp [List.replicate_succ, List.dropWhile_cons, h, ih]

/-- `takeWhile` over `replicate n a ++ l` takes exactly the replicate when
the continuation starts with a failing character. -/
theorem takeWhile_replicate_append (p : Char → Bool) (a : Char) (h : p a = true)
    (n : Nat) (l : List Char) (hl : l.takeWhile p = []) :
    (List.replicate n a ++ l).takeWhile p = List.replicate n a := by
  induction n with
  | zero => simpa using hl
  | succ m ih => simp [List.replicate_succ, List.takeWhile_cons, h, ih]

/-- `dropWhile` over `replicate n a ++ l` drops the whole replicate. -/
theorem dropWhile_replicate_append (p : Char → Bool) (a : Char) (h : p a = true)
    (n : Nat) (l : List Char) :
    (List.replicate n a ++ l).dropWhile p = l.dropWhile p := by
  induction n with
  | zero => rfl
  | succ m ih => simp [List.replicate_succ, List.dropWhile_cons, h, ih]

/-- The regex scan on the two-heading shape of `c1Chars`: both headings
match, each capturing its full run of `a`s. -/
theorem scanHeadings_two_headings (m f : Nat) :
    scanHeadings (f + 3)
      ('#' :: ' ' :: (List.replicate (m + 1) 'a' ++
        '\n' :: '#' :: ' ' :: List.replicate (m + 1) 'a')) true =
      [List.replicate (m + 1) 'a', List.replicate (m + 1) 'a'] := by
  have hnl : (('\n' : Char) :: '#' :: ' ' :: List.replicate (m + 1) 'a').takeWhile
      isDotChar = [] := rfl
  have h1 : scanHeadings (f + 3)
      ('#' :: ' ' :: (List.replicate (m + 1) 'a' ++
        '\n' :: '#' :: ' ' :: List.replicate (m + 1) 'a')) true =
      (List.replicate (m + 1) 'a' ++
        '\n' :: '#' :: ' ' :: List.replicate (m + 1) 'a').takeWhile isDotChar ::
      scanHeadings (f + 2)
        ((List.replicate (m + 1) 'a' ++
          '\n' :: '#' :: ' ' :: List.replicate (m + 1) 'a').dropWhile isDotChar)
        false := rfl
  have h2 : scanHeadings (f + 1) ('#' :: ' ' :: List.replicate (m + 1) 'a') true =
      (List.replicate (m + 1) 'a').takeWhile isDotChar ::
      scanHeadings f ((List.replicate (m + 1) 'a').dropWhile isDotChar) false := rfl
  rw [h1, takeWhile_replicate_append isDotChar 'a' rfl _ _ hnl,
      dropWhile_replicate_append isDotChar 'a' rfl]
  have h3 : (('\n' : Char) :: '#' :: ' ' :: List.replicate (m + 1) 'a').dropWhile
      isDotChar = '\n' :: '#' :: ' ' :: List.replicate (m + 1) 'a' := rfl
  rw [h3]
  have h4 : scanHeadings (f + 2) ('\n' :: '#' :: ' ' :: List.replicate (m + 1) 'a')
      false = scanHeadings (f + 1) ('#' :: ' ' :: List.replicate (m + 1) 'a') true := rfl
  rw [h4, h2, takeWhile_replicate_eq isDotChar 'a' rfl,
      dropWhile_replicate_eq isDotChar 'a' rfl, scanHeadings_nil]

/-- The slide entries the handler builds for `c1Input`. -/
def c1Entry (i : Nat) : MDSlideEntry :=
  { id := "slide-" ++ toString i, title := ⟨List.replicate 13000 'a'⟩,
    layout := "content", block_count := 1 }

/-- The handler's regex loop extracts exactly the two big-title slides from
`c1Input`. -/
theorem pptFromMarkdownSlides_c1 :
    pptFromMarkdownSlides c1Input = [c1Entry 0, c1Entry 1] := by
  have hlen : c1Input.data.length = 26002 + 3 := by
    show c1Chars.length = 26002 + 3
    simp only [c1Chars, List.length_cons, List.length_append, List.length_replicate]
  have hscan : scanHeadings (c1Input.data.length) c1Input.data true =
      [List.replicate 13000 'a', List.replicate 13000 'a'] := by
    rw [hlen]
    show scanHeadings (26002 + 3) c1Chars true = _
    have h13 : (13000 : Nat) = 12999 + 1 := by norm_num
    rw [c1Chars, h13, scanHeadings_two_headings 12999 26002]
  unfold pptFromMarkdownSlides
  rw [hscan]
  rfl

/-- Escaping a run of `a`s leaves it unchanged. -/
theorem escape_replicate_a (n : Nat) :
    (((List.replicate n 'a').map escapeJSONChar).flatten).length = n := by
  induction n with
  | zero => rfl
  | succ m ih =>
    have ha : escapeJSONChar 'a' = ['a'] := rfl
    simp [List.replicate_succ, ha, ih]

/-- Length of the JSON-quoted big title. -/
theorem qstr_big_title_length :
    (qstr ⟨List.replicate 13000 'a'⟩).length = 13002 := by
  show ('"' :: (((List.replicate 13000 'a').map escapeJSONChar).flatten ++ ['"'])).length = 13002
  rw [List.length_cons, List.length_append, escape_replicate_a]
  rfl

/-- Length of the first serialized big-title slide entry. -/
theorem slideEntryChars_c1_length_0 :
    (slideEntryChars (c1Entry 0)).length = 13103 := by
  simp only [slideEntryChars, c1Entry, List.length_append, List.length_cons,
             qstr_big_title_length]
  decide

/-- Length of the second serialized big-title slide entry. -/
theorem slideEntryChars_c1_length_1 :
    (slideEntryChars (c1Entry 1)).length = 13103 := by
  simp only [slideEntryChars, c1Entry, List.length_append, List.length_cons,
             qstr_big_title_length]
  decide

/-- Serialized length of a two-slide result object, as a function of the two
entry lengths (the fixed skeleton contributes 63 characters). -/
theorem stringify_length_two (e0 e1 : MDSlideEntry) :
    (stringifyMDOutput { slide_count := 2, slides := [e0, e1],
                         success := true }).length =
      (slideEntryChars e0).length + (slideEntryChars e1).length + 63 := by
  simp only [stringifyMDOutput, slidesValueChars, slideListChars, String.length,
             List.length_append, List.length_cons, List.length_nil,
             show (qstr "slide_count").length = 13 from rfl,
             show (qstr "slides").length = 8 from rfl,
             show (qstr "success").length = 9 from rfl,
             show (boolChars true).length = 4 from rfl,
             show ((Nat.repr 2).data).length = 1 from rfl]
  omega

/-- C1: code evaluation at the failing input.  For `c1Input` the code's own
truncation condition holds (`JSON.stringify(output, null, 2)` exceeds
`CHARACTER_LIMIT`), and the truncation the handler computes would have kept
only `ceil(2/2) = 1` slide with `truncated: true` — yet the returned
response carries both slides, no `truncated` and no `truncation_message`
key, and its text is the untruncated serialization: the computed truncation
never reaches the response. -/
theorem truncation_never_reaches_response :
    CHARACTER_LIMIT <
      (stringifyMDOutput { slide_count := (pptFromMarkdownSlides c1Input).length,
                           slides := pptFromMarkdownSlides c1Input,
                           success := true }).length ∧
    ((pptFromMarkdownSlides c1Input).take
        (((pptFromMarkdownSlides c1Input).length + 1) / 2)).length = 1 ∧
    (pptFromMarkdownHandler c1Input .json).structuredContent.truncated = none ∧
    (pptFromMarkdownHandler c1Input .json).structuredContent.truncation_message = none ∧
    (pptFromMarkdownHandler c1Input .json).structuredContent.slides.length = 2 ∧
    (pptFromMarkdownHandler c1Input .json).contentText =
      stringifyMDOutput { slide_count := (pptFromMarkdownSlides c1Input).length,
                          slides := pptFromMarkdownSlides c1Input,
                          success := true } := by
  have hslides := pptFromMarkdownSlides_c1
  have hhandler : pptFromMarkdownHandler c1Input .json =
      { contentText := stringifyMDOutput
          { slide_count := ([c1Entry 0, c1Entry 1] : List MDSlideEntry).length,
            slides := [c1Entry 0, c1Entry 1], success := true },
        structuredContent :=
          { slide_count := ([c1Entry 0, c1Entry 1] : List MDSlideEntry).length,
            slides := [c1Entry 0, c1Entry 1], success := true } } := by
    unfold pptFromMarkdownHandler
    rw [hslides]
    rfl
  refine ⟨?_, ?_, ?_, ?_, ?_, ?_⟩
  · rw [hslides,
        show ([c1Entry 0, c1Entry 1] : List MDSlideEntry).length = 2 from rfl,
        stringify_length_two (c1Entry 0) (c1Entry 1),
        slideEntryChars_c1_length_0, slideEntryChars_c1_length_1]
    decide
  · rw [hslides]
    rfl
  · rw [hhandler]
  · rw [hhandler]
  · rw [hhandler]
    rfl
  · rw [hhandler, hslides]

end PPTKit
